import Mathlib

/-!
# Verification of the generated FFI binding layer (`src/sys/cxx/gen0.cxx`)

The repository fragment is cxx/autocxx generated glue: smart-pointer
lifecycle adapters (`std::unique_ptr` / `std::shared_ptr` / `std::weak_ptr`
over the opaque native types `RE::Calendar` and `tm`), a `std::vector<tm>`
sequence adapter, the `rust::IsRelocatable` compile-time trait, and per
operation call trampolines.

We give a shallow embedding of those entry points.  The native referents are
opaque: the only observable events are how many times the native destructor
has run on each allocation, so worlds are destruction ledgers (plus, for
shared ownership, the control-block counts that the standard smart pointers
maintain).  Each definition's doc comment names the source function it
embeds.
-/

/-- Raw pointer values.  The binding layer treats referents as opaque, so a
pointer is just an allocation identifier; the null pointer is modelled by
`Option.none` in handles. -/
abbrev Ptr := Nat

/-- Destruction ledger for exclusively owned allocations: how many times the
native destructor has run on each pointer.  A correct program keeps every
count at `≤ 1`. -/
abbrev DtorCount := Ptr → Nat

/-- The in-memory cell of a `std::unique_ptr<T>` (`T` = `RE::Calendar`, `tm`
or `std::vector<tm>`; the generated adapter bodies are identical for all
three): the stored raw pointer, `none` in the null state. -/
structure UniquePtrH where
  stored : Option Ptr
  deriving DecidableEq, Repr

namespace UniquePtr

/-- Embeds `cxxbridge1$unique_ptr$...$null`: placement-constructs an empty handle
(`::new (ptr) ::std::unique_ptr<T>()`). -/
def null : UniquePtrH := ⟨none⟩

/-- Embeds `cxxbridge1$unique_ptr$...$raw`: adopts an already constructed pointer
(`::new (ptr) ::std::unique_ptr<T>(raw)`). -/
def raw (p : Ptr) : UniquePtrH := ⟨some p⟩

/-- Embeds `cxxbridge1$unique_ptr$...$get`: `return ptr.get();` — takes the handle
by const reference and returns its stored pointer.  Threaded through the
destruction ledger to state the frame property. -/
def get (w : DtorCount) (h : UniquePtrH) : DtorCount × UniquePtrH × Option Ptr :=
  (w, h, h.stored)

/-- Embeds `cxxbridge1$unique_ptr$...$release`: `return ptr.release();` — the
standard `release` stores null into the handle and returns the previously
stored pointer; it never runs the deleter. -/
def release (w : DtorCount) (h : UniquePtrH) : DtorCount × UniquePtrH × Option Ptr :=
  (w, ⟨none⟩, h.stored)

/-- Embeds `cxxbridge1$unique_ptr$...$drop`:
`::rust::deleter_if<is_complete>{}(ptr)` with a complete referent, i.e.
`ptr->~unique_ptr()`.  The `unique_ptr` destructor runs the native destructor
on the stored pointer when it is non-null and does nothing otherwise; it
does not write to the stored-pointer bytes, so after the call the cell still
holds the old pointer (calling `drop` twice is a caller contract violation
in the source; the model follows what the generated code's machine does). -/
def drop (w : DtorCount) (h : UniquePtrH) : DtorCount × UniquePtrH :=
  match h.stored with
  | none => (w, h)
  | some p => (Function.update w p (w p + 1), h)

end UniquePtr

/-- Allocation identifier of a shared-ownership control block. -/
abbrev AllocId := Nat

/-- A `std::shared_ptr` control block together with the destruction ledger
for its referent: `strong` is the number of live shared handles, `weak` the
number of live weak handles, and `dtor` is how many times the referent's
native destructor has run (0 while alive, 1 once destroyed). -/
structure RcState where
  strong : Nat
  weak : Nat
  dtor : Nat
  deriving DecidableEq, Repr

/-- The shared-ownership world: one control block per allocation. -/
abbrev RcWorld := AllocId → RcState

/-- The in-memory cell of a `std::shared_ptr<T>`: null or a reference to its
allocation's control block. -/
structure SharedH where
  ref : Option AllocId
  deriving DecidableEq, Repr

/-- The in-memory cell of a `std::weak_ptr<T>`: null or a reference to its
allocation's control block. -/
structure WeakH where
  ref : Option AllocId
  deriving DecidableEq, Repr

namespace SharedPtr

/-- Embeds `cxxbridge1$shared_ptr$...$null`:
`::new (ptr) ::std::shared_ptr<T>()`. -/
def null : SharedH := ⟨none⟩

/-- Embeds `cxxbridge1$shared_ptr$...$clone`:
`::new (ptr) ::std::shared_ptr<T>(self)` — the copy constructor increments
the strong count when the source is non-null and yields a handle to the same
allocation; copying a null handle yields a null handle. -/
def clone (w : RcWorld) (h : SharedH) : RcWorld × SharedH :=
  match h.ref with
  | none => (w, ⟨none⟩)
  | some a => (Function.update w a { w a with strong := (w a).strong + 1 }, ⟨some a⟩)

/-- Embeds `cxxbridge1$shared_ptr$...$get`: `return self.get();` — const reference
in, stored pointer (as the referent's allocation id) out.  Threaded through
the world to state the frame property. -/
def get (w : RcWorld) (h : SharedH) : RcWorld × SharedH × Option AllocId :=
  (w, h, h.ref)

/-- Embeds `cxxbridge1$shared_ptr$...$drop`: `self->~shared_ptr();` — the
destructor decrements the strong count of a non-null handle and runs the
referent's native destructor exactly when the count reaches zero; dropping a
null handle does nothing. -/
def drop (w : RcWorld) (h : SharedH) : RcWorld :=
  match h.ref with
  | none => w
  | some a =>
    if (w a).strong = 1 then
      Function.update w a { w a with strong := 0, dtor := (w a).dtor + 1 }
    else
      Function.update w a { w a with strong := (w a).strong - 1 }

end SharedPtr

namespace WeakPtr

/-- Embeds `cxxbridge1$weak_ptr$...$downgrade`:
`::new (weak) ::std::weak_ptr<T>(shared)` — observes the shared handle's
allocation without touching its strong count (the weak count is
incremented); downgrading a null shared handle yields a null weak handle. -/
def downgrade (w : RcWorld) (h : SharedH) : RcWorld × WeakH :=
  match h.ref with
  | none => (w, ⟨none⟩)
  | some a => (Function.update w a { w a with weak := (w a).weak + 1 }, ⟨some a⟩)

/-- Embeds `cxxbridge1$weak_ptr$...$upgrade`:
`::new (shared) ::std::shared_ptr<T>(weak.lock())` — `lock` yields a new
shared handle to the same allocation (incrementing the strong count) when
the referent is still alive (`strong ≥ 1`), and the empty shared handle when
the referent has expired or the weak handle is null. -/
def upgrade (w : RcWorld) (h : WeakH) : RcWorld × SharedH :=
  match h.ref with
  | none => (w, ⟨none⟩)
  | some a =>
    if 1 ≤ (w a).strong then
      (Function.update w a { w a with strong := (w a).strong + 1 }, ⟨some a⟩)
    else
      (w, ⟨none⟩)

end WeakPtr

/-- Trace harness for the shared-ownership claims: clone a live handle to
allocation `a` a further `n` times (each clone goes through
`SharedPtr.clone`). -/
def cloneN (w : RcWorld) (a : AllocId) : Nat → RcWorld
  | 0 => w
  | n + 1 => cloneN (SharedPtr.clone w ⟨some a⟩).1 a n

/-- Trace harness: drop `k` of the outstanding shared handles to allocation
`a`, each through `SharedPtr.drop`. -/
def dropK (w : RcWorld) (a : AllocId) : Nat → RcWorld
  | 0 => w
  | k + 1 => dropK (SharedPtr.drop w ⟨some a⟩) a k

/-- The C `tm` time-record struct (the element type of the bound
`std::vector<tm>`): nine `int` fields, a trivially movable and trivially
destructible value type. -/
structure Tm where
  tm_sec : Int
  tm_min : Int
  tm_hour : Int
  tm_mday : Int
  tm_mon : Int
  tm_year : Int
  tm_wday : Int
  tm_yday : Int
  tm_isdst : Int
  deriving DecidableEq, Repr

/-- A caller-side element slot crossing the boundary: its value and whether
the slot is still live (its destructor not yet run). -/
structure Slot where
  val : Tm
  live : Bool
  deriving DecidableEq, Repr

namespace VectorTm

/-- Embeds `cxxbridge1$std$vector$tm$new`: `return new ::std::vector<::tm>();` —
a fresh empty sequence. -/
def new : List Tm := []

/-- Embeds `cxxbridge1$std$vector$tm$size`: `return s.size();`. -/
def size (s : List Tm) : Nat := s.length

/-- Embeds `cxxbridge1$std$vector$tm$get_unchecked`: `return &(*s)[pos];` — no
bounds check in the source; out-of-range access is undefined behaviour, so
the model returns `none` exactly there. -/
def get_unchecked (s : List Tm) (pos : Nat) : Option Tm := s.get? pos

/-- Embeds `cxxbridge1$std$vector$tm$push_back`:
`v->push_back(::std::move(*value)); ::rust::destroy(value);` — moves the
caller's element into the sequence's storage and then runs the destructor on
the caller-side slot. -/
def push_back (v : List Tm) (value : Slot) : List Tm × Slot :=
  (v ++ [value.val], { value with live := false })

/-- Embeds `cxxbridge1$std$vector$tm$pop_back`:
`::new (out) ::tm(::std::move(v->back())); v->pop_back();` — move-constructs
the last element into caller storage and shrinks the sequence by one;
calling it on an empty sequence is undefined behaviour (`none`). -/
def pop_back (v : List Tm) : Option (List Tm × Tm) :=
  match v.getLast? with
  | none => none
  | some x => some (v.dropLast, x)

end VectorTm

/-- Trace harness: push every element of `xs` (each in a live caller slot)
onto sequence `v`, in order, through `VectorTm.push_back`. -/
def pushAll (v : List Tm) : List Tm → List Tm
  | [] => v
  | x :: xs => pushAll (VectorTm.push_back v ⟨x, true⟩).1 xs

/-- The compile-time facts about a C++ type that
`rust::IsRelocatable` (gen0.cxx lines 110–118) inspects:
whether `T::IsRelocatable` is declared (`detail::is_detected`), whether that
member equals `std::true_type` (`detail::get_IsRelocatable`), and the two
standard triviality traits. -/
structure TypeTraits where
  declares_member : Bool
  member_is_true_type : Bool
  trivially_move_constructible : Bool
  trivially_destructible : Bool
  deriving DecidableEq, Repr

/-- Embeds `rust::IsRelocatable<T>` (gen0.cxx lines 110–118):
`std::conditional` on whether `T::IsRelocatable` is detected — if declared,
the result is whether the member equals `std::true_type`; otherwise it is
`is_trivially_move_constructible && is_trivially_destructible`. -/
def IsRelocatable (T : TypeTraits) : Bool :=
  if T.declares_member then T.member_is_true_type
  else T.trivially_move_constructible && T.trivially_destructible

/-- "T explicitly opts in": declares an `IsRelocatable` member equal to
`std::true_type` (the claim's wording). -/
def opts_in (T : TypeTraits) : Bool :=
  T.declares_member && T.member_is_true_type

/-- Traits of `c_uint` (`typedef unsigned int c_uint`, autocxxgen_ffi.h
line 36): a builtin integer type declares no `IsRelocatable` member and is
trivially move-constructible and trivially destructible. -/
def c_uint_traits : TypeTraits :=
  { declares_member := false
    member_is_true_type := false
    trivially_move_constructible := true
    trivially_destructible := true }

/-- The opaque native `RE::Calendar` referent as the trampolines observe it.
The native accessor bodies live in the host engine (out of scope per the
spec), so each accessor's result is an abstract field: the numeric-enum
accessors return `c_uint` values and the name accessors return text. -/
structure Calendar where
  dayOfWeek : Nat
  month : Nat
  year : Nat
  dayName : String
  monthName : String

/-- Caller-provided output storage for a `c_uint` result: `none` while
uninitialized, `some v` once a value has been placement-constructed into
it. -/
abbrev OutSlot := Option Nat

/-- Embeds `RE$cxxbridge1$Calendar$GetDayOfWeek` (gen0.cxx lines 206–209):
`new (return$) ::c_uint((self.*GetDayOfWeek$)());` — placement-constructs
the native result into the caller's output storage, regardless of that
storage's prior contents; nothing is returned by value. -/
def Calendar_GetDayOfWeek (self : Calendar) (_ret : OutSlot) : OutSlot :=
  some self.dayOfWeek

/-- Embeds `RE$cxxbridge1$Calendar$GetMonth` (gen0.cxx lines 231–234): same shape
as `GetDayOfWeek`. -/
def Calendar_GetMonth (self : Calendar) (_ret : OutSlot) : OutSlot :=
  some self.month

/-- Embeds `RE$cxxbridge1$Calendar$GetYear` (gen0.cxx lines 257–260): same shape
as `GetDayOfWeek`. -/
def Calendar_GetYear (self : Calendar) (_ret : OutSlot) : OutSlot :=
  some self.year

/-- The heap of owned `std::string` allocations handed across the boundary:
slot `i` holds the `i`-th allocated buffer's contents.  A returned pointer
is an index into this heap; indices `≥ length` are unallocated. -/
abbrev StrHeap := List String

/-- Embeds `cxxbridge1$GetDayName_autocxx_wrapper_...` (gen0.cxx lines 198–201,
wrapper body autocxxgen_ffi.h line 42):
`return make_unique<string>(autocxx_gen_this.GetDayName()).release();` —
allocates a fresh heap string holding a copy of the native text and returns
the owning pointer to it. -/
def GetDayName_wrapper (self : Calendar) (h : StrHeap) : StrHeap × Nat :=
  (h ++ [self.dayName], h.length)

/-- Embeds `cxxbridge1$GetMonthName_autocxx_wrapper_...` (gen0.cxx lines 239–242,
wrapper body autocxxgen_ffi.h line 43): same shape as `GetDayName`. -/
def GetMonthName_wrapper (self : Calendar) (h : StrHeap) : StrHeap × Nat :=
  (h ++ [self.monthName], h.length)

/-!
## Theorems for the claims
-/

/-- C4: for every unique handle, `release` returns the stored pointer (so
`some p` for a handle holding `p`, and the null pointer for a null handle),
leaves the handle in the null state — a subsequent `get` returns the null
pointer — and runs no destructor (the destruction ledger is unchanged). -/
theorem unique_release_transfers_ownership (w : DtorCount) (h : UniquePtrH) :
    (UniquePtr.release w h).2.2 = h.stored ∧
    ((UniquePtr.release w h).2.1).stored = none ∧
    (UniquePtr.release w h).1 = w ∧
    (UniquePtr.get (UniquePtr.release w h).1 (UniquePtr.release w h).2.1).2.2 = none := by
  exact ⟨rfl, rfl, rfl, rfl⟩

/-- C10: the `get` accessors of the unique and shared adapters are pure
observers: they return exactly the stored pointer (the null pointer in the
null state) and change neither the handle, nor the destruction ledger, nor
any reference count.  The generated bodies for `unique_ptr<Calendar>`,
`unique_ptr<tm>`, `unique_ptr<vector<tm>>` and `shared_ptr<...>` are
identical instantiations of these two definitions. -/
theorem get_is_pure_observer (w : DtorCount) (h : UniquePtrH)
    (rw : RcWorld) (sh : SharedH) :
    UniquePtr.get w h = (w, h, h.stored) ∧
    SharedPtr.get rw sh = (rw, sh, sh.ref) ∧
    (UniquePtr.get w UniquePtr.null).2.2 = none ∧
    (SharedPtr.get rw SharedPtr.null).2.2 = none := by
  exact ⟨rfl, rfl, rfl, rfl⟩

/-- C8: each numeric-enum accessor trampoline (`GetDayOfWeek`, `GetMonth`,
`GetYear`) delivers its result only by placement-constructing it into the
caller-provided output storage (the model's return value is the new content
of that storage; whatever the storage held before is overwritten), and the
written value equals the value the native operation returned. -/
theorem enum_trampolines_construct_in_place (self : Calendar) (ret : OutSlot) :
    Calendar_GetDayOfWeek self ret = some self.dayOfWeek ∧
    Calendar_GetMonth self ret = some self.month ∧
    Calendar_GetYear self ret = some self.year := by
  exact ⟨rfl, rfl, rfl⟩

/-- C9: the string-returning wrappers (`GetDayName`, `GetMonthName`) return
a pointer to a freshly heap-allocated buffer: the returned index was not an
allocated slot of the pre-call heap (`get?` on the old heap yields `none`),
the new buffer's contents equal the native operation's text, and all
previously allocated buffers are untouched. -/
theorem string_wrappers_return_owned_copy (self : Calendar) (h : StrHeap) :
    (GetDayName_wrapper self h).2 = h.length ∧
    h.get? (GetDayName_wrapper self h).2 = none ∧
    (GetDayName_wrapper self h).1.get? (GetDayName_wrapper self h).2
      = some self.dayName ∧
    (GetDayName_wrapper self h).1.take h.length = h ∧
    (GetMonthName_wrapper self h).2 = h.length ∧
    h.get? (GetMonthName_wrapper self h).2 = none ∧
    (GetMonthName_wrapper self h).1.get? (GetMonthName_wrapper self h).2
      = some self.monthName ∧
    (GetMonthName_wrapper self h).1.take h.length = h := by
  refine ⟨rfl, ?_, ?_, ?_, rfl, ?_, ?_, ?_⟩
  · exact List.get?_eq_none.mpr le_rfl
  · simp [GetDayName_wrapper, List.get?_eq_getElem?]
  · exact List.take_left h [self.dayName]
  · exact List.get?_eq_none.mpr le_rfl
  · simp [GetMonthName_wrapper, List.get?_eq_getElem?]
  · exact List.take_left h [self.monthName]

/-- C7 counterexample: a type that declares `IsRelocatable = std::false_type`
while being trivially move-constructible and trivially destructible.  The
claim's biconditional predicts relocatability (second disjunct holds), but
`rust::IsRelocatable` evaluates the declared member and yields `false`: the
declared member overrides the triviality test. -/
theorem IsRelocatable_claim_counterexample :
    IsRelocatable ⟨true, false, true, true⟩ = false ∧
    (opts_in ⟨true, false, true, true⟩ ||
      (TypeTraits.trivially_move_constructible ⟨true, false, true, true⟩ &&
        TypeTraits.trivially_destructible ⟨true, false, true, true⟩)) = true := by
  exact ⟨rfl, rfl⟩

/-- C7 amended: `rust::IsRelocatable` holds exactly when either the type
explicitly opts in (declares an `IsRelocatable` member equal to
`std::true_type`), or it declares no `IsRelocatable` member and is both
trivially move-constructible and trivially destructible; and the gate for
`c_uint` (the `static_assert` at gen0.cxx lines 157–159) passes, as `c_uint`
is a builtin trivially movable, trivially destructible type. -/
theorem IsRelocatable_spec (T : TypeTraits) :
    (IsRelocatable T =
      (opts_in T ||
        (!T.declares_member &&
          (T.trivially_move_constructible && T.trivially_destructible)))) ∧
    IsRelocatable c_uint_traits = true := by
  rcases T with ⟨a, b, c, d⟩
  refine ⟨?_, rfl⟩
  cases a <;> cases b <;> cases c <;> cases d <;> rfl

/-- C5: `push_back` moves the caller's element into the sequence's storage
(the value is appended unchanged) and destroys the caller-side source slot
(it comes back dead with its value intact); an immediately following
`pop_back` restores the sequence to its prior contents — in particular its
prior size — and writes the pushed element's value into the caller's output
storage. -/
theorem push_pop_roundtrip (v : List Tm) (s : Slot) :
    ((VectorTm.push_back v s).2).live = false ∧
    ((VectorTm.push_back v s).2).val = s.val ∧
    (VectorTm.push_back v s).1 = v ++ [s.val] ∧
    VectorTm.size (VectorTm.push_back v s).1 = VectorTm.size v + 1 ∧
    VectorTm.pop_back (VectorTm.push_back v s).1 = some (v, s.val) := by
  refine ⟨rfl, rfl, rfl, ?_, ?_⟩
  · simp [VectorTm.push_back, VectorTm.size]
  · simp [VectorTm.push_back, VectorTm.pop_back, List.getLast?_concat]

/-- Helper: pushing the elements of `xs` one by one appends them in push
order. -/
theorem pushAll_eq_append (xs : List Tm) : ∀ v : List Tm, pushAll v xs = v ++ xs := by
  induction xs with
  | nil => intro v; simp [pushAll]
  | cons x xs ih =>
    intro v
    rw [pushAll, ih, VectorTm.push_back]
    simp

/-- C6: starting from the empty sequence produced by `new`, after pushing
the `N` elements of `xs` in order, `size` returns `N`, and for every valid
index `i < size`, `get_unchecked i` returns the `i`-th pushed element in
push order. -/
theorem vector_push_size_index (xs : List Tm) :
    VectorTm.size (pushAll VectorTm.new xs) = xs.length ∧
    ∀ i : Nat, ∀ hi : i < xs.length,
      VectorTm.get_unchecked (pushAll VectorTm.new xs) i = some (xs.get ⟨i, hi⟩) := by
  have hx : pushAll VectorTm.new xs = xs := by
    rw [pushAll_eq_append]; simp [VectorTm.new]
  constructor
  · rw [VectorTm.size, hx]
  · intro i hi
    rw [VectorTm.get_unchecked, hx]
    simp [List.get?_eq_get hi]

/-- Witness for C6 at a concrete two-element push sequence. -/
theorem vector_push_size_index_witness :
    VectorTm.size (pushAll VectorTm.new
      [⟨1, 2, 3, 4, 5, 6, 7, 8, 9⟩, ⟨10, 11, 12, 13, 14, 15, 16, 17, 18⟩]) = 2 ∧
    VectorTm.get_unchecked (pushAll VectorTm.new
      [⟨1, 2, 3, 4, 5, 6, 7, 8, 9⟩, ⟨10, 11, 12, 13, 14, 15, 16, 17, 18⟩]) 1
      = some ⟨10, 11, 12, 13, 14, 15, 16, 17, 18⟩ := by
  refine ⟨(vector_push_size_index _).1, ?_⟩
  have h := (vector_push_size_index
    [⟨1, 2, 3, 4, 5, 6, 7, 8, 9⟩, ⟨10, 11, 12, 13, 14, 15, 16, 17, 18⟩]).2 1 (by decide)
  simpa using h

/-- C3 counterexample: a unique handle holding pointer `0`, dropped twice
with no intervening `release`, starting from an all-zero destruction ledger.
The first drop runs the native destructor once; the second drop — which the
claim as stated predicts to be a no-op, since `release` was not called in
between — runs it a second time on the same allocation. -/
theorem unique_double_drop_counterexample :
    ((UniquePtr.drop (fun _ => 0) ⟨some 0⟩).1) 0 = 1 ∧
    ((UniquePtr.drop (UniquePtr.drop (fun _ => 0) ⟨some 0⟩).1
        (UniquePtr.drop (fun _ => 0) ⟨some 0⟩).2).1) 0 = 2 := by
  exact ⟨rfl, rfl⟩

/-- C3 amended: for a unique handle holding a non-null pointer `p`, after
`drop`, a second `drop` is a no-op (changes neither the ledger nor the
handle) if and only if `release` WAS called in between: with an intervening
`release` the second drop changes nothing, while without it the second drop
runs the native destructor on `p` a second time (the `unique_ptr` destructor
does not null the stored pointer). -/
theorem unique_double_drop_amended (w : DtorCount) (p : Ptr) :
    (UniquePtr.drop
        (UniquePtr.release (UniquePtr.drop w ⟨some p⟩).1
          (UniquePtr.drop w ⟨some p⟩).2).1
        (UniquePtr.release (UniquePtr.drop w ⟨some p⟩).1
          (UniquePtr.drop w ⟨some p⟩).2).2.1
      = ((UniquePtr.release (UniquePtr.drop w ⟨some p⟩).1
            (UniquePtr.drop w ⟨some p⟩).2).1,
         (UniquePtr.release (UniquePtr.drop w ⟨some p⟩).1
            (UniquePtr.drop w ⟨some p⟩).2).2.1)) ∧
    (UniquePtr.drop w ⟨some p⟩).1 p = w p + 1 ∧
    ((UniquePtr.drop w ⟨some p⟩).2).stored = some p ∧
    (UniquePtr.drop (UniquePtr.drop w ⟨some p⟩).1
        (UniquePtr.drop w ⟨some p⟩).2).1 p = w p + 2 := by
  refine ⟨rfl, ?_, rfl, ?_⟩
  · simp [UniquePtr.drop, Function.update_same]
  · simp [UniquePtr.drop, Function.update_same]

/-- Helper: `n` clones of a live handle to `a` add `n` to the strong count
of `a` and leave its weak count and destruction count unchanged. -/
theorem cloneN_spec (n : Nat) : ∀ (w : RcWorld) (a : AllocId),
    (cloneN w a n) a = { w a with strong := (w a).strong + n } := by
  induction n with
  | zero => intro w a; simp [cloneN]
  | succ n ih =>
    intro w a
    rw [cloneN, ih]
    simp [SharedPtr.clone, Function.update_same]
    omega

/-- Helper: dropping `k ≤ strong` of the outstanding shared handles to `a`
decrements the strong count by `k`, and runs the referent's destructor
(once) exactly when that brings a positive count to zero. -/
theorem dropK_spec (k : Nat) : ∀ (w : RcWorld) (a : AllocId), k ≤ (w a).strong →
    ((dropK w a k) a).strong = (w a).strong - k ∧
    ((dropK w a k) a).dtor =
      (if k = (w a).strong ∧ 0 < (w a).strong then (w a).dtor + 1 else (w a).dtor) := by
  induction k with
  | zero =>
    intro w a hk
    rw [dropK]
    refine ⟨by omega, ?_⟩
    rw [if_neg]
    omega
  | succ k ih =>
    intro w a hk
    rw [dropK]
    by_cases h1 : (w a).strong = 1
    · have hk0 : k = 0 := by omega
      subst hk0
      rw [dropK, SharedPtr.drop]
      simp only [if_pos h1, Function.update_same]
      constructor
      · omega
      · rw [if_pos]
        exact ⟨by omega, by omega⟩
    · have h2 : 2 ≤ (w a).strong := by omega
      have hdrop : (SharedPtr.drop w ⟨some a⟩) a =
          { w a with strong := (w a).strong - 1 } := by
        rw [SharedPtr.drop]
        simp only [if_neg h1, Function.update_same]
      have hk' : k ≤ ((SharedPtr.drop w ⟨some a⟩) a).strong := by
        rw [hdrop]; simp; omega
      have := ih (SharedPtr.drop w ⟨some a⟩) a hk'
      rw [hdrop] at this
      simp only at this
      refine ⟨by rw [this.1]; omega, ?_⟩
      rw [this.2]
      by_cases hke : k = (w a).strong - 1
      · rw [if_pos ⟨hke, by omega⟩, if_pos ⟨by omega, by omega⟩]
      · rw [if_neg, if_neg]
        · omega
        · omega

/-- C1: starting from one live shared handle to allocation `a` (strong count
1, referent not yet destroyed), after `N` clones the strong count is `N + 1`
and the referent is still alive; and after dropping `k ≤ N + 1` of the
`N + 1` outstanding handles, the referent has been destroyed exactly once
when `k = N + 1` (the count reached zero) and not at all before that. -/
theorem shared_clone_drop_destroys_once (w : RcWorld) (a : AllocId) (N k : Nat)
    (hs : (w a).strong = 1) (hd : (w a).dtor = 0) (hk : k ≤ N + 1) :
    ((cloneN w a N) a).strong = N + 1 ∧
    ((cloneN w a N) a).dtor = 0 ∧
    ((dropK (cloneN w a N) a k) a).strong = N + 1 - k ∧
    ((dropK (cloneN w a N) a k) a).dtor = (if k = N + 1 then 1 else 0) := by
  have hc := cloneN_spec N w a
  have h1 : ((cloneN w a N) a).strong = N + 1 := by rw [hc]; simp [hs]; omega
  have h2 : ((cloneN w a N) a).dtor = 0 := by rw [hc]; simp [hd]
  have hk' : k ≤ ((cloneN w a N) a).strong := by omega
  have hdk := dropK_spec k (cloneN w a N) a hk'
  refine ⟨h1, h2, by rw [hdk.1, h1], ?_⟩
  rw [hdk.2, h1, h2]
  by_cases hke : k = N + 1
  · rw [if_pos ⟨hke, by omega⟩, if_pos hke]
  · rw [if_neg, if_neg hke]
    omega

/-- Witness for C1: one live handle, two clones, then three drops destroy
the referent exactly once, and two drops destroy it not at all. -/
theorem shared_clone_drop_destroys_once_witness :
    ((dropK (cloneN (fun _ => ⟨1, 0, 0⟩) 0 2) 0 3) 0).dtor = 1 ∧
    ((dropK (cloneN (fun _ => ⟨1, 0, 0⟩) 0 2) 0 2) 0).dtor = 0 ∧
    ((dropK (cloneN (fun _ => ⟨1, 0, 0⟩) 0 2) 0 2) 0).strong = 1 := by
  have h3 := shared_clone_drop_destroys_once (fun _ => ⟨1, 0, 0⟩) 0 2 3 rfl rfl
    (by decide)
  have h2 := shared_clone_drop_destroys_once (fun _ => ⟨1, 0, 0⟩) 0 2 2 rfl rfl
    (by decide)
  refine ⟨?_, ?_, ?_⟩
  · rw [h3.2.2.2]; rfl
  · rw [h2.2.2.2]; rfl
  · rw [h2.2.2.1]

/-- C2: for a weak handle created by `downgrade` from a non-null shared
handle `s` to allocation `a`: in any world where every shared handle to the
referent has been dropped (strong count 0), `upgrade` writes the empty/null
shared state and changes nothing; in any world where at least one shared
handle is still live (strong count ≥ 1), `upgrade` writes a valid shared
handle referencing the same object as `s` and registers it (strong count is
incremented). -/
theorem weak_downgrade_upgrade_spec (w : RcWorld) (a : AllocId) (s : SharedH)
    (hs : s.ref = some a) :
    ((WeakPtr.downgrade w s).2).ref = some a ∧
    (∀ w2 : RcWorld, (w2 a).strong = 0 →
      WeakPtr.upgrade w2 (WeakPtr.downgrade w s).2 = (w2, ⟨none⟩)) ∧
    (∀ w2 : RcWorld, 1 ≤ (w2 a).strong →
      ((WeakPtr.upgrade w2 (WeakPtr.downgrade w s).2).2).ref = s.ref ∧
      (((WeakPtr.upgrade w2 (WeakPtr.downgrade w s).2).1) a).strong
        = (w2 a).strong + 1) := by
  have hdg : (WeakPtr.downgrade w s).2 = ⟨some a⟩ := by
    rw [WeakPtr.downgrade, hs]
  refine ⟨by rw [hdg], ?_, ?_⟩
  · intro w2 h0
    rw [hdg, WeakPtr.upgrade]
    simp only [if_neg (by omega : ¬ 1 ≤ (w2 a).strong)]
  · intro w2 h1
    rw [hdg, WeakPtr.upgrade]
    simp only [if_pos h1]
    exact ⟨by rw [hs], by rw [Function.update_same]⟩

/-- Witness for C2: downgrade a live shared handle to allocation 0, then
upgrade once while the referent is live (strong count 1 becomes 2, same
referent) and once after it has expired (strong count 0: the null shared
state comes back). -/
theorem weak_downgrade_upgrade_spec_witness :
    ((WeakPtr.downgrade (fun _ => ⟨1, 0, 0⟩) ⟨some 0⟩).2).ref = some 0 ∧
    WeakPtr.upgrade (fun _ => ⟨0, 1, 1⟩)
      (WeakPtr.downgrade (fun _ => ⟨1, 0, 0⟩) ⟨some 0⟩).2
      = ((fun _ => ⟨0, 1, 1⟩), ⟨none⟩) ∧
    ((WeakPtr.upgrade (fun _ => ⟨1, 1, 0⟩)
        (WeakPtr.downgrade (fun _ => ⟨1, 0, 0⟩) ⟨some 0⟩).2).2).ref = some 0 ∧
    (((WeakPtr.upgrade (fun _ => ⟨1, 1, 0⟩)
        (WeakPtr.downgrade (fun _ => ⟨1, 0, 0⟩) ⟨some 0⟩).2).1) 0).strong = 2 := by
  have h := weak_downgrade_upgrade_spec (fun _ => ⟨1, 0, 0⟩) 0 ⟨some 0⟩ rfl
  refine ⟨h.1, h.2.1 (fun _ => ⟨0, 1, 1⟩) rfl, (h.2.2 (fun _ => ⟨1, 1, 0⟩) (by decide)).1, ?_⟩
  rw [(h.2.2 (fun _ => ⟨1, 1, 0⟩) (by decide)).2]
